import Mathlib

/-!
Verification of the prediction request pipeline of `src/index.ts`
(an Express `/predict` endpoint: lazy model load from Cloud Storage,
tfjs image preprocessing, inference, threshold interpretation,
Firestore persistence, and manual tensor disposal).

The embedding is shallow: the tfjs tensor operations appearing in the
handler (`tf.image.resizeBilinear`, `.div`, `.expandDims`) are
implemented over a rational-valued tensor type; the external
collaborators (image decoder, model forward pass, Firestore write,
Cloud Storage load) are per-request oracles recorded in an `Env`,
since their outcomes are produced outside the repository's code.
The handler itself (`handle` below) mirrors the control flow of
`app.post("/predict", ...)` line by line, additionally logging the
event trace, buffer allocations/disposals, and persisted records that
the claims talk about.
-/

namespace CancerApi

/-- A tfjs tensor, modelled as a shape together with the flat data
buffer in row-major order.  Pixel data decoded from an image is
`int32` in 0..255; after `div(255.0)` values are rational. -/
structure Tensor where
  shape : List Nat
  data : List ℚ
deriving DecidableEq

/-- A loaded `tf.GraphModel` handle; only its identity matters here. -/
abbrev Model := Nat

/-- Row-major lookup of element `(y, x, k)` of a `height x width x c`
tensor buffer, with the tfjs convention that an in-range read returns
the stored element (out-of-range reads cannot happen for in-contract
indices; `getD`'s default keeps the function total). -/
def sampleAt (data : List ℚ) (w c y x k : Nat) : ℚ :=
  data.getD ((y * w + x) * c + k) 0

/-- The source coordinate `outCoord * inDim / outDim` used by
`tf.image.resizeBilinear` with `alignCorners = false` (the handler
passes no flag, so this default applies). -/
def srcIndex (outCoord inDim outDim : Nat) : ℚ :=
  (outCoord : ℚ) * inDim / outDim

/-- Top/left source grid index: `floor` of the source coordinate. -/
def topIndex (outCoord inDim outDim : Nat) : Nat :=
  ⌊srcIndex outCoord inDim outDim⌋.toNat

/-- Bottom/right source grid index, clamped to the last row/column. -/
def botIndex (outCoord inDim outDim : Nat) : Nat :=
  min (topIndex outCoord inDim outDim + 1) (inDim - 1)

/-- Fractional interpolation weight `srcIndex - floor (srcIndex)`. -/
def fracWeight (outCoord inDim outDim : Nat) : ℚ :=
  srcIndex outCoord inDim outDim - (topIndex outCoord inDim outDim : ℚ)

/-- Linear interpolation `a + (b - a) * t`, exactly as the bilinear
resize kernel combines neighbouring samples. -/
def lerp (a b t : ℚ) : ℚ := a + (b - a) * t

/-- One output element of the bilinear resize: interpolate the four
neighbouring source samples, first along x, then along y. -/
def bilinearValue (data : List ℚ) (h w c outH outW y x k : Nat) : ℚ :=
  lerp
    (lerp (sampleAt data w c (topIndex y h outH) (topIndex x w outW) k)
          (sampleAt data w c (topIndex y h outH) (botIndex x w outW) k)
          (fracWeight x w outW))
    (lerp (sampleAt data w c (botIndex y h outH) (topIndex x w outW) k)
          (sampleAt data w c (botIndex y h outH) (botIndex x w outW) k)
          (fracWeight x w outW))
    (fracWeight y h outH)

/-- `tf.image.resizeBilinear(t, [outH, outW])` on a rank-3 tensor
`height x width x channels`: the channel count is carried through
unchanged; only the two spatial dimensions are resized.  (tfjs also
accepts rank-4 batches, which this handler never produces for
non-animated inputs; other ranks are left untouched here.) -/
def resizeBilinear : Tensor → Nat → Nat → Tensor
  | ⟨[h, w, c], d⟩, outH, outW =>
    ⟨[outH, outW, c],
      (List.range outH).flatMap fun y =>
        (List.range outW).flatMap fun x =>
          (List.range c).map fun k => bilinearValue d h w c outH outW y x k⟩
  | t, _, _ => t

/-- `tensor.div(255.0)` (elementwise scalar division). -/
def tensorDiv (t : Tensor) (s : ℚ) : Tensor :=
  ⟨t.shape, t.data.map fun v => v / s⟩

/-- `tensor.expandDims(0)`: prepend a batch dimension of size 1. -/
def expandDims0 (t : Tensor) : Tensor :=
  ⟨1 :: t.shape, t.data⟩

/-- The preprocessing chain of the handler applied to the decoded
image: `resizeBilinear(img, [224, 224]).div(255.0).expandDims(0)`. -/
def prepare (img : Tensor) : Tensor :=
  expandDims0 (tensorDiv (resizeBilinear img 224 224) 255)

/-- `(x).toFixed(2)` followed by `parseFloat`, as applied to the
nonnegative scores of this handler: exact rounding (half up) to two
decimal places. -/
def toFixed2 (x : ℚ) : ℚ := (round (x * 100) : ℤ) / 100

/-- Rounding to `d` decimal places, written from the spec's words
"rounds to 2 decimal places" (used to compare against the
`toFixed`-based computation in the source). -/
def roundToDecimals (d : Nat) (x : ℚ) : ℚ :=
  (round (x * 10 ^ d) : ℤ) / 10 ^ d

/-- The spec's description of the confidence score: the first scalar
of the model output, scaled by 100 and rounded to 2 decimal places. -/
def scoreSpec (v : ℚ) : ℚ := roundToDecimals 2 (v * 100)

/-- The clinical-referral advisory string of the handler. -/
def referralAdvisory : String := "Segera periksa ke dokter!"

/-- The no-detection advisory string of the handler. -/
def noDetectionAdvisory : String := "Penyakit kanker tidak terdeteksi."

/-- `parseFloat(predictionValue) > 50 ? "Cancer" : "Non-cancer"`. -/
def interpretResult (score : ℚ) : String :=
  if score > 50 then "Cancer" else "Non-cancer"

/-- `result === "Cancer" ? referral : noDetection`. -/
def interpretSuggestion (score : ℚ) : String :=
  if interpretResult score = "Cancer" then referralAdvisory else noDetectionAdvisory

/-- The four intermediate tensor buffers allocated by one invocation
of the handler (`tfImage`, `resizedImage`, `normalizedImage`,
`prediction`). -/
inductive Buf where
  | tfImage
  | resizedImage
  | normalizedImage
  | prediction
deriving DecidableEq

/-- Observable events of one handler invocation, in program order:
calls into the collaborators, successful returns where a claim needs
them, identifier generation, and tensor disposal. -/
inductive Ev where
  | loadCall
  | decodeCall
  | predictCall
  | predictDone
  | genId
  | saveCall
  | saveDone
  | dispose (b : Buf)
deriving DecidableEq

/-- Response status distinguishing the `"success"` and `"fail"` JSON
bodies of the handler. -/
inductive Status where
  | success
  | fail
deriving DecidableEq

/-- The document written to the `predictions` collection (also echoed
in the success response body). -/
structure Record where
  id : String
  result : String
  suggestion : String
  createdAt : String
deriving DecidableEq

/-- The HTTP response produced by the handler. -/
structure Response where
  code : Nat
  status : Status
  message : String
  data : Option Record
deriving DecidableEq

/-- Per-request outcomes of the external collaborators, plus the
request itself.  Each field is the result the collaborator would
deliver if invoked during this request: `loadResult` for
`loadModel()`, `decodeResult` for `tf.node.decodeImage`,
`predictResult` for `cancerModel.predict`, `saveResult` for the
Firestore `set()`, and `freshId`/`timestamp` for `uuidv4()` /
`new Date().toISOString()`. -/
structure Env where
  hasFile : Bool
  loadResult : Except Unit Model
  decodeResult : Except Unit Tensor
  predictResult : Except Unit Tensor
  saveResult : Except Unit Unit
  freshId : String
  timestamp : String

/-- Everything observable about one handler invocation: the HTTP
response, the model cache slot (`cancerModel`) after the invocation,
the event trace, which tensor buffers were allocated and disposed,
the records successfully persisted, the prepared tensor, and the
internal confidence score (when computed). -/
structure Outcome where
  response : Response
  cache : Option Model
  trace : List Ev
  allocated : List Buf
  disposed : List Buf
  persisted : List Record
  prepared : Option Tensor
  score : Option ℚ
deriving DecidableEq

/-- The uniform catch-block failure message of the handler. -/
def failMessage : String := "Terjadi kesalahan dalam melakukan prediksi"

/-- The handler body after the model is available: preprocessing,
prediction, interpretation, persistence, disposal, response — with
any thrown error short-circuiting to the catch block (a 400 `fail`
response) exactly as in the source.  `t0` is the trace accumulated by
the model-loading step. -/
def handleWithModel (env : Env) (cache : Option Model) (t0 : List Ev) : Outcome :=
  match env.decodeResult with
  | .error _ =>
    ⟨⟨400, .fail, failMessage, none⟩, cache, t0 ++ [.decodeCall],
      [], [], [], none, none⟩
  | .ok img =>
    let prep := prepare img
    match env.predictResult with
    | .error _ =>
      ⟨⟨400, .fail, failMessage, none⟩, cache,
        t0 ++ [.decodeCall, .predictCall],
        [.tfImage, .resizedImage, .normalizedImage], [], [], some prep, none⟩
    | .ok pred =>
      let score := toFixed2 (pred.data.getD 0 0 * 100)
      let verdict := interpretResult score
      let advice := interpretSuggestion score
      let doc : Record := ⟨env.freshId, verdict, advice, env.timestamp⟩
      match env.saveResult with
      | .error _ =>
        ⟨⟨400, .fail, failMessage, none⟩, cache,
          t0 ++ [.decodeCall, .predictCall, .predictDone, .genId, .saveCall],
          [.tfImage, .resizedImage, .normalizedImage, .prediction], [], [],
          some prep, some score⟩
      | .ok _ =>
        ⟨⟨200, .success, "Model is predicted successfully", some doc⟩, cache,
          t0 ++ [.decodeCall, .predictCall, .predictDone, .genId, .saveCall, .saveDone,
            .dispose .tfImage, .dispose .resizedImage, .dispose .normalizedImage,
            .dispose .prediction],
          [.tfImage, .resizedImage, .normalizedImage, .prediction],
          [.tfImage, .resizedImage, .normalizedImage, .prediction],
          [doc], some prep, some score⟩

/-- One invocation of `app.post("/predict", ...)`: reject a missing
upload, lazily load the model into the `cancerModel` slot (an
unguarded module-level variable, passed in as `cache`), then run the
rest of the pipeline.  A `loadModel()` failure is caught by the
handler's try/catch and leaves the cache slot untouched. -/
def handle (env : Env) (cache : Option Model) : Outcome :=
  match env.hasFile with
  | false =>
    ⟨⟨400, .fail, "No image uploaded", none⟩, cache, [], [], [], [], none, none⟩
  | true =>
    match cache, env.loadResult with
    | none, .error _ =>
      ⟨⟨400, .fail, failMessage, none⟩, none, [.loadCall], [], [], [], none, none⟩
    | none, .ok m => handleWithModel env (some m) [.loadCall]
    | some m, _ => handleWithModel env (some m) []

/-!
Interleaving model of the lazy model load under two concurrent
requests.  Node's event loop runs the code between `await` points
atomically, so a request interacts with the shared `cancerModel`
variable at exactly two points: the `if (!cancerModel)` check (which,
when the slot is empty, starts `loadModel()` and suspends), and the
resumption after the awaited load settles (which assigns the slot on
success).  A request that finds the slot populated uses that handle
with no further suspension before the read.
-/

instance {α β : Type} [DecidableEq α] [DecidableEq β] : DecidableEq (Except α β) := fun a b =>
  match a, b with
  | .ok x, .ok y => if h : x = y then .isTrue (by rw [h]) else .isFalse (by intro hc; cases hc; exact h rfl)
  | .error x, .error y => if h : x = y then .isTrue (by rw [h]) else .isFalse (by intro hc; cases hc; exact h rfl)
  | .ok _, .error _ => .isFalse (by intro hc; cases hc)
  | .error _, .ok _ => .isFalse (by intro hc; cases hc)

/-- Progress of one request through the model-acquisition section:
not yet at the check, suspended inside `await loadModel()`, or past
it having observed a handle (or a load failure). -/
inductive TState where
  | start
  | loading
  | finished (observed : Except Unit Model)
deriving DecidableEq

/-- One atomic scheduler step of a single request: `l` is what that
request's `loadModel()` call will deliver, `cache` the shared slot. -/
def stepT (l : Except Unit Model) (cache : Option Model) : TState → Option Model × TState
  | .start =>
    match cache with
    | some m => (cache, .finished (.ok m))
    | none => (cache, .loading)
  | .loading =>
    match l with
    | .ok m => (some m, .finished (.ok m))
    | .error e => (cache, .finished (.error e))
  | .finished r => (cache, .finished r)

/-- Shared state of two concurrent requests: the `cancerModel` slot
and each request's progress. -/
structure CSys where
  cache : Option Model
  t1 : TState
  t2 : TState
deriving DecidableEq

/-- Run one scheduler step of request 1 (`who = true`) or request 2
(`who = false`). -/
def stepSys (l1 l2 : Except Unit Model) (s : CSys) (who : Bool) : CSys :=
  match who with
  | true => ⟨(stepT l1 s.cache s.t1).1, (stepT l1 s.cache s.t1).2, s.t2⟩
  | false => ⟨(stepT l2 s.cache s.t2).1, s.t1, (stepT l2 s.cache s.t2).2⟩

/-- Execute a schedule (a list of which request steps next) from the
uninitialized state: empty cache slot, both requests at the check. -/
def run2 (l1 l2 : Except Unit Model) (sched : List Bool) : CSys :=
  sched.foldl (stepSys l1 l2) ⟨none, .start, .start⟩

/-- Number of `loadModel()` calls currently in flight. -/
def loadsInFlight (s : CSys) : Nat :=
  (if s.t1 = .loading then 1 else 0) + (if s.t2 = .loading then 1 else 0)

/-- A handle is accounted for when it is the completed result of one
of the two requests' load operations. -/
def okFrom (l1 l2 : Except Unit Model) (m : Model) : Prop :=
  l1 = .ok m ∨ l2 = .ok m

/-- Checks that every `genId` event in a trace is preceded by a
`predictDone` event: the identifier/timestamp pair is generated only
after inference (and the pure interpretation step) has succeeded. -/
def genOnlyAfterPredict : List Ev → Bool → Bool
  | [], _ => true
  | .predictDone :: rest, _ => genOnlyAfterPredict rest true
  | .genId :: rest, seen => seen && genOnlyAfterPredict rest seen
  | _ :: rest, seen => genOnlyAfterPredict rest seen

/-! Concrete inputs used by counterexamples and witnesses. -/

/-- A 2x2 single-channel (grayscale) decoded image: a valid image
whose decode under `tf.node.decodeImage` (no `channels` argument, so
the image's own channel count is kept) yields one channel. -/
def grayImg : Tensor := ⟨[2, 2, 1], [0, 85, 170, 255]⟩

/-- A 1x1 RGB decoded image. -/
def rgbImg : Tensor := ⟨[1, 1, 3], [12, 34, 56]⟩

/-- A model output tensor whose first scalar is 0.8. -/
def predOut : Tensor := ⟨[1, 1], [4/5]⟩

/-- A request where every collaborator succeeds. -/
def envOk : Env := ⟨true, .ok 7, .ok rgbImg, .ok predOut, .ok (), "id-0", "t-0"⟩

/-- A request where only the Firestore write fails. -/
def envSaveFail : Env := ⟨true, .ok 7, .ok rgbImg, .ok predOut, .error (), "id-0", "t-0"⟩

/-- A request where the model load fails. -/
def envLoadFail : Env := ⟨true, .error (), .ok rgbImg, .ok predOut, .ok (), "id-0", "t-0"⟩

/-- A request that carries no uploaded file. -/
def envNoFile : Env := ⟨false, .ok 7, .ok rgbImg, .ok predOut, .ok (), "id-0", "t-0"⟩

/-! Helper lemmas. -/

lemma getD_zero_bounds {lo hi : ℚ} (hlo : lo ≤ 0) (hhi : 0 ≤ hi) :
    ∀ (l : List ℚ), (∀ v ∈ l, lo ≤ v ∧ v ≤ hi) → ∀ i, lo ≤ l.getD i 0 ∧ l.getD i 0 ≤ hi := by
  intro l
  induction l with
  | nil => intro _ i; simpa using ⟨hlo, hhi⟩
  | cons a as ih =>
    intro hv i
    cases i with
    | zero => simpa using hv a (by simp)
    | succ n =>
      simp only [List.getD_cons_succ]
      exact ih (fun v hmem => hv v (by simp [hmem])) n

lemma sampleAt_bounds {data : List ℚ} {lo hi : ℚ} (hlo : lo ≤ 0) (hhi : 0 ≤ hi)
    (hv : ∀ v ∈ data, lo ≤ v ∧ v ≤ hi) (w c y x k : Nat) :
    lo ≤ sampleAt data w c y x k ∧ sampleAt data w c y x k ≤ hi :=
  getD_zero_bounds hlo hhi data hv _

lemma srcIndex_nonneg (outCoord inDim outDim : Nat) : 0 ≤ srcIndex outCoord inDim outDim := by
  unfold srcIndex
  positivity

lemma fracWeight_bounds (outCoord inDim outDim : Nat) :
    0 ≤ fracWeight outCoord inDim outDim ∧ fracWeight outCoord inDim outDim ≤ 1 := by
  unfold fracWeight topIndex
  have hq : 0 ≤ srcIndex outCoord inDim outDim := srcIndex_nonneg outCoord inDim outDim
  have h0 : (0 : ℤ) ≤ ⌊srcIndex outCoord inDim outDim⌋ := Int.floor_nonneg.mpr hq
  have hcast : ((⌊srcIndex outCoord inDim outDim⌋.toNat : ℚ)) = ((⌊srcIndex outCoord inDim outDim⌋ : ℤ) : ℚ) := by
    exact_mod_cast Int.toNat_of_nonneg h0
  rw [hcast]
  constructor
  · linarith [Int.floor_le (srcIndex outCoord inDim outDim)]
  · linarith [Int.lt_floor_add_one (srcIndex outCoord inDim outDim)]

lemma lerp_bounds {lo hi a b t : ℚ} (ha1 : lo ≤ a) (ha2 : a ≤ hi) (hb1 : lo ≤ b) (hb2 : b ≤ hi)
    (ht1 : 0 ≤ t) (ht2 : t ≤ 1) : lo ≤ lerp a b t ∧ lerp a b t ≤ hi := by
  unfold lerp
  constructor
  · nlinarith [mul_nonneg (sub_nonneg.2 hb1) ht1, mul_nonneg (sub_nonneg.2 ha1) (sub_nonneg.2 ht2)]
  · nlinarith [mul_nonneg (sub_nonneg.2 hb2) (sub_nonneg.2 ht2), mul_nonneg (sub_nonneg.2 ha2) ht1,
      mul_nonneg (sub_nonneg.2 hb2) ht1]

lemma bilinearValue_bounds {data : List ℚ} (hv : ∀ v ∈ data, 0 ≤ v ∧ v ≤ 255)
    (h w c outH outW y x k : Nat) :
    0 ≤ bilinearValue data h w c outH outW y x k ∧ bilinearValue data h w c outH outW y x k ≤ 255 := by
  unfold bilinearValue
  have hX := fracWeight_bounds x w outW
  have hY := fracWeight_bounds y h outH
  have H : ∀ y' x' : Nat, 0 ≤ sampleAt data w c y' x' k ∧ sampleAt data w c y' x' k ≤ 255 :=
    fun y' x' => sampleAt_bounds le_rfl (by norm_num) hv w c y' x' k
  have top := lerp_bounds (H (topIndex y h outH) (topIndex x w outW)).1
    (H (topIndex y h outH) (topIndex x w outW)).2
    (H (topIndex y h outH) (botIndex x w outW)).1
    (H (topIndex y h outH) (botIndex x w outW)).2 hX.1 hX.2
  have bot := lerp_bounds (H (botIndex y h outH) (topIndex x w outW)).1
    (H (botIndex y h outH) (topIndex x w outW)).2
    (H (botIndex y h outH) (botIndex x w outW)).1
    (H (botIndex y h outH) (botIndex x w outW)).2 hX.1 hX.2
  exact lerp_bounds top.1 top.2 bot.1 bot.2 hY.1 hY.2

lemma resizeBilinear_data_bounds {d : List ℚ} {h w c : Nat}
    (hv : ∀ v ∈ d, 0 ≤ v ∧ v ≤ 255) :
    ∀ v ∈ (resizeBilinear ⟨[h, w, c], d⟩ 224 224).data, 0 ≤ v ∧ v ≤ 255 := by
  intro v hmem
  simp only [resizeBilinear, List.mem_flatMap, List.mem_map, List.mem_range] at hmem
  obtain ⟨y, _, x, _, k, _, rfl⟩ := hmem
  exact bilinearValue_bounds hv h w c 224 224 y x k

lemma toFixed2_eq_scoreSpec (v : ℚ) : toFixed2 (v * 100) = scoreSpec v := by
  unfold toFixed2 scoreSpec roundToDecimals
  norm_num

lemma toFixed2_bounds {v : ℚ} (h0 : 0 ≤ v) (h1 : v ≤ 1) :
    0 ≤ toFixed2 (v * 100) ∧ toFixed2 (v * 100) ≤ 100 := by
  unfold toFixed2
  rw [round_eq]
  have hlow : (0 : ℤ) ≤ ⌊v * 100 * 100 + 1 / 2⌋ := Int.floor_nonneg.mpr (by nlinarith)
  have hup : ⌊v * 100 * 100 + 1 / 2⌋ ≤ 10000 := by
    have hle : (⌊v * 100 * 100 + 1 / 2⌋ : ℚ) ≤ 10000 + 1 / 2 := by
      calc (⌊v * 100 * 100 + 1 / 2⌋ : ℚ) ≤ v * 100 * 100 + 1 / 2 := Int.floor_le _
        _ ≤ 10000 + 1 / 2 := by nlinarith
    have : (⌊v * 100 * 100 + 1 / 2⌋ : ℚ) < 10001 := by linarith
    exact_mod_cast Int.lt_add_one_iff.mp (by exact_mod_cast this)
  constructor
  · positivity
  · rw [div_le_iff₀ (by norm_num)]
    calc ((⌊v * 100 * 100 + 1 / 2⌋ : ℤ) : ℚ) ≤ (10000 : ℤ) := by exact_mod_cast hup
      _ = 100 * 100 := by norm_num

/-- On the all-successful concrete request, the internal confidence
score evaluates to 80 (model output 0.8, scaled and rounded). -/
lemma envOk_score : (handle envOk none).score = some 80 := by
  have h0 : (handle envOk none).score = some (toFixed2 (4 / 5 * 100)) := rfl
  rw [h0, toFixed2, round_eq]
  norm_num

/-- Case analysis of the internal confidence score: either the
invocation never computed one, or the prediction succeeded with some
output tensor and the score is its first scalar times 100 put through
`toFixed(2)`. -/
lemma handle_score_cases (env : Env) (cache : Option Model) :
    (handle env cache).score = none ∨
      ∃ p, env.predictResult = .ok p ∧
        (handle env cache).score = some (toFixed2 (p.data.getD 0 0 * 100)) := by
  obtain ⟨hf, lr, dr, pr, sr, fid, ts⟩ := env
  cases hf <;> cases cache <;> cases lr <;> cases dr <;> cases pr <;> cases sr <;>
    simp [handle, handleWithModel]

/-- The cache slot after an invocation is either what it was before
or a handle delivered by a successful `loadModel()`. -/
lemma handle_cache_cases (env : Env) (cache : Option Model) :
    (handle env cache).cache = cache ∨
      ∃ m, env.loadResult = .ok m ∧ (handle env cache).cache = some m := by
  obtain ⟨hf, lr, dr, pr, sr, fid, ts⟩ := env
  cases hf <;> cases cache <;> cases lr <;> cases dr <;> cases pr <;> cases sr <;>
    simp [handle, handleWithModel]

/-- The step of a single request preserves "every populated cache
value and every observed handle satisfies `P`", provided the
request's own load result satisfies `P` when it is a success. -/
lemma stepT_preserves {l : Except Unit Model} {cache : Option Model} {t : TState}
    {P : Model → Prop}
    (hc : ∀ m, cache = some m → P m) (ht : ∀ m, t = .finished (.ok m) → P m)
    (hl : ∀ m, l = .ok m → P m) :
    (∀ m, (stepT l cache t).1 = some m → P m) ∧
      (∀ m, (stepT l cache t).2 = .finished (.ok m) → P m) := by
  cases t with
  | start =>
    cases cache with
    | none =>
      exact ⟨fun m hm => by simp [stepT] at hm, fun m hm => by simp [stepT] at hm⟩
    | some m0 =>
      refine ⟨fun m hm => ?_, fun m hm => ?_⟩ <;>
        · simp only [stepT] at hm
          exact hc m (by simp_all)
  | loading =>
    cases l with
    | ok m0 =>
      refine ⟨fun m hm => ?_, fun m hm => ?_⟩ <;>
        · simp only [stepT] at hm
          exact hl m (by simp_all)
    | error e =>
      refine ⟨fun m hm => hc m ?_, fun m hm => ?_⟩
      · simpa [stepT] using hm
      · simp [stepT] at hm
  | finished r =>
    refine ⟨fun m hm => hc m ?_, fun m hm => ht m ?_⟩ <;> simp_all [stepT]

/-- The two-request invariant: the cache and both observations only
ever hold handles delivered by one of the two completed loads. -/
def sysAccounted (l1 l2 : Except Unit Model) (s : CSys) : Prop :=
  (∀ m, s.cache = some m → okFrom l1 l2 m) ∧
    (∀ m, s.t1 = .finished (.ok m) → okFrom l1 l2 m) ∧
    (∀ m, s.t2 = .finished (.ok m) → okFrom l1 l2 m)

lemma stepSys_preserves {l1 l2 : Except Unit Model} {s : CSys} (who : Bool)
    (h : sysAccounted l1 l2 s) : sysAccounted l1 l2 (stepSys l1 l2 s who) := by
  obtain ⟨hc, h1, h2⟩ := h
  cases who with
  | true =>
    have step := stepT_preserves (l := l1) hc h1 (fun m hm => Or.inl hm)
    exact ⟨step.1, step.2, h2⟩
  | false =>
    have step := stepT_preserves (l := l2) hc h2 (fun m hm => Or.inr hm)
    exact ⟨step.1, h1, step.2⟩

lemma run2_accounted (l1 l2 : Except Unit Model) (sched : List Bool) :
    sysAccounted l1 l2 (run2 l1 l2 sched) := by
  have init : sysAccounted l1 l2 ⟨none, .start, .start⟩ := by
    refine ⟨fun m hm => ?_, fun m hm => ?_, fun m hm => ?_⟩ <;> simp_all
  unfold run2
  generalize hs : (⟨none, .start, .start⟩ : CSys) = s0
  rw [hs] at init
  clear hs
  induction sched generalizing s0 with
  | nil => simpa using init
  | cons a rest ih => exact ih _ (stepSys_preserves a init)

/-! Claim theorems. -/

/-- Claim C2: for every confidence score `s` the result interpreter
yields label `Cancer` iff `s > 50.0` and `Non-cancer` otherwise (in
particular `s = 50.0` yields `Non-cancer`), and the suggestion is the
clinical-referral advisory exactly when the label is `Cancer`, the
no-detection advisory otherwise. -/
theorem interpret_threshold (s : ℚ) :
    (interpretResult s = "Cancer" ↔ 50 < s) ∧
      (interpretResult s = "Non-cancer" ↔ ¬ 50 < s) ∧
      (interpretSuggestion s = referralAdvisory ↔ interpretResult s = "Cancer") ∧
      (interpretSuggestion s = noDetectionAdvisory ↔ interpretResult s = "Non-cancer") ∧
      interpretResult (50 : ℚ) = "Non-cancer" := by
  have hs : ("Cancer" : String) ≠ "Non-cancer" := by decide
  have hadv : referralAdvisory ≠ noDetectionAdvisory := by decide
  have h50 : ¬ (50 : ℚ) < 50 := lt_irrefl 50
  by_cases h : 50 < s <;>
    simp [interpretResult, interpretSuggestion, h, h50, hs, hs.symm, hadv, hadv.symm]

/-- Claim C3 (counterexample): the preprocessing of a valid decoded
image need not have shape `[1, 224, 224, 3]` — a grayscale image
keeps its single channel through resize/normalize/expandDims, because
the handler calls `tf.node.decodeImage` without forcing 3 channels. -/
theorem prepare_shape_not_always_rgb :
    grayImg.shape = [2, 2, 1] ∧
      (∀ v ∈ grayImg.data, 0 ≤ v ∧ v ≤ 255) ∧
      (prepare grayImg).shape = [1, 224, 224, 1] ∧
      (prepare grayImg).shape ≠ [1, 224, 224, 3] := by
  refine ⟨rfl, ?_, rfl, by decide⟩
  intro v hv
  simp only [grayImg, List.mem_cons, List.not_mem_nil, or_false] at hv
  rcases hv with rfl | rfl | rfl | rfl <;> norm_num

/-- Claim C3 (amended): for every decoded image — a rank-3 tensor of
8-bit channel values — the preprocessing chain (bilinear resize to
224x224, divide by 255, prepend batch dimension) produces a tensor of
shape `[1, 224, 224, c]` where `c` is the decoded channel count
(so exactly `[1, 224, 224, 3]` for 3-channel decodes), with every
value in `[0, 1]`. -/
theorem prepare_shape_and_range (h w c : Nat) (img : Tensor)
    (hs : img.shape = [h, w, c]) (hv : ∀ v ∈ img.data, 0 ≤ v ∧ v ≤ 255) :
    (prepare img).shape = [1, 224, 224, c] ∧
      ∀ v ∈ (prepare img).data, 0 ≤ v ∧ v ≤ 1 := by
  obtain ⟨sh, d⟩ := img
  simp only at hs
  subst hs
  constructor
  · rfl
  · intro v hmem
    simp only [prepare, expandDims0, tensorDiv, List.mem_map] at hmem
    obtain ⟨u, hu, rfl⟩ := hmem
    have hb := resizeBilinear_data_bounds (d := d) (h := h) (w := w) (c := c) hv u hu
    constructor
    · exact div_nonneg hb.1 (by norm_num)
    · rw [div_le_one (by norm_num)]
      linarith [hb.2]

/-- Claim C3 (witness): the amended statement evaluated at a concrete
1x1 RGB image. -/
theorem prepare_shape_and_range_witness :
    (prepare rgbImg).shape = [1, 224, 224, 3] ∧
      ∀ v ∈ (prepare rgbImg).data, 0 ≤ v ∧ v ≤ 1 := by
  refine prepare_shape_and_range 1 1 3 rgbImg rfl ?_
  intro v hv
  simp only [rgbImg, List.mem_cons, List.not_mem_nil, or_false] at hv
  rcases hv with rfl | rfl | rfl <;> norm_num

/-- Claim C1: evaluation of the handler at a request whose Firestore
write rejects after a successful decode and prediction.  All four
intermediate tensor buffers were allocated, the invocation fails, and
none of the buffers is disposed: the `dispose()` calls sit on the
success path only, after the write, so the catch path leaks them. -/
theorem saveFail_leaks_buffers :
    (handle envSaveFail none).allocated =
        [.tfImage, .resizedImage, .normalizedImage, .prediction] ∧
      (handle envSaveFail none).disposed = [] ∧
      (handle envSaveFail none).response.status = .fail :=
  ⟨rfl, rfl, rfl⟩

/-- Claim C4: when the model load fails, the request fails and the
`cancerModel` cache slot stays empty, so a later request retries the
load; a subsequent request whose load (and remaining stages) succeed
produces a success response. -/
theorem loadFail_leaves_cache_empty (env env2 : Env) (m : Model) (img pr : Tensor)
    (h1 : env.hasFile = true) (h2 : env.loadResult = .error ())
    (h3 : env2.hasFile = true) (h4 : env2.loadResult = .ok m)
    (h5 : env2.decodeResult = .ok img) (h6 : env2.predictResult = .ok pr)
    (h7 : env2.saveResult = .ok ()) :
    (handle env none).response.status = .fail ∧
      (handle env none).cache = none ∧
      (handle env2 ((handle env none).cache)).response.status = .success := by
  obtain ⟨hf, lr, dr, prr, sr, fid, ts⟩ := env
  obtain ⟨hf2, lr2, dr2, prr2, sr2, fid2, ts2⟩ := env2
  simp only at h1 h2 h3 h4 h5 h6 h7
  subst h1 h2 h3 h4 h5 h6 h7
  exact ⟨rfl, rfl, rfl⟩

/-- Claim C4 (witness): the retry scenario at concrete requests. -/
theorem loadFail_leaves_cache_empty_witness :
    (handle envLoadFail none).response.status = .fail ∧
      (handle envLoadFail none).cache = none ∧
      (handle envOk ((handle envLoadFail none).cache)).response.status = .success :=
  loadFail_leaves_cache_empty envLoadFail envOk 7 rgbImg predOut rfl rfl rfl rfl rfl rfl rfl

/-- Claim C5: in every invocation the fresh identifier (and with it
the timestamp, generated on the adjacent line) is generated only
after the prediction has succeeded, the persistence write is only
ever attempted after the identifier exists, and a failed invocation
persists no record. -/
theorem record_built_only_on_success (env : Env) (cache : Option Model) :
    genOnlyAfterPredict (handle env cache).trace false = true ∧
      (Ev.saveCall ∈ (handle env cache).trace → Ev.genId ∈ (handle env cache).trace) ∧
      ((handle env cache).response.status = .fail → (handle env cache).persisted = []) := by
  obtain ⟨hf, lr, dr, pr, sr, fid, ts⟩ := env
  cases hf <;> cases cache <;> cases lr <;> cases dr <;> cases pr <;> cases sr <;>
    simp [handle, handleWithModel, genOnlyAfterPredict]

/-- Claim C5 (witness): at the failing concrete request (Firestore
write rejects) no record is persisted. -/
theorem record_built_only_on_success_witness :
    (handle envSaveFail none).persisted = [] :=
  (record_built_only_on_success envSaveFail none).2.2 rfl

/-- Claim C6: a successful invocation attempts the persistence write
exactly once (and persists exactly one record), and when the write
was attempted but the Firestore collaborator fails, the whole request
is reported as a failure rather than returning the computed result. -/
theorem save_attempted_once_and_failure_surfaced (env : Env) (cache : Option Model) :
    ((handle env cache).response.status = .success →
        (handle env cache).trace.count .saveCall = 1 ∧
          (handle env cache).persisted.length = 1) ∧
      (Ev.saveCall ∈ (handle env cache).trace → env.saveResult = .error () →
        (handle env cache).response.status = .fail) := by
  obtain ⟨hf, lr, dr, pr, sr, fid, ts⟩ := env
  cases hf <;> cases cache <;> cases lr <;> cases dr <;> cases pr <;> cases sr <;>
    simp [handle, handleWithModel, List.count_cons]

/-- Claim C6 (witness): the success case attempts one write; the
failing-write case produces a failure response. -/
theorem save_attempted_once_witness :
    ((handle envOk none).trace.count .saveCall = 1 ∧
        (handle envOk none).persisted.length = 1) ∧
      (handle envSaveFail none).response.status = .fail :=
  ⟨(save_attempted_once_and_failure_surfaced envOk none).1 rfl,
    (save_attempted_once_and_failure_surfaced envSaveFail none).2 (by decide) rfl⟩

/-- Claim C7: whenever an invocation computes a confidence score, it
equals the first scalar of the model's output tensor scaled by 100
and rounded to two decimal places. -/
theorem score_is_rounded_scaled_output (env : Env) (cache : Option Model)
    (p : Tensor) (s : ℚ) (hp : env.predictResult = .ok p)
    (hs : (handle env cache).score = some s) :
    s = scoreSpec (p.data.getD 0 0) := by
  rcases handle_score_cases env cache with hnone | ⟨p', hp', hsc⟩
  · rw [hnone] at hs
    cases hs
  · rw [hp] at hp'
    injection hp' with hpp
    subst hpp
    rw [hsc] at hs
    injection hs with hss
    rw [← hss]
    exact toFixed2_eq_scoreSpec _

/-- Claim C7 (witness): on the concrete request with model output
0.8 the score is 80.00, which is the spec's rounding of 0.8 * 100. -/
theorem score_is_rounded_scaled_output_witness :
    (handle envOk none).score = some 80 ∧
      (80 : ℚ) = scoreSpec (predOut.data.getD 0 0) :=
  ⟨envOk_score, score_is_rounded_scaled_output envOk none predOut 80 rfl envOk_score⟩

/-- Claim C8: whenever the pipeline reaches interpretation (a score
was computed), and the model's first output scalar is a probability
in `[0, 1]` — the spec's characterization of the external binary
classifier — the confidence score lies in `[0, 100]`. -/
theorem score_in_range (env : Env) (cache : Option Model) (p : Tensor) (s : ℚ)
    (hp : env.predictResult = .ok p) (h0 : 0 ≤ p.data.getD 0 0)
    (h1 : p.data.getD 0 0 ≤ 1) (hs : (handle env cache).score = some s) :
    0 ≤ s ∧ s ≤ 100 := by
  rcases handle_score_cases env cache with hnone | ⟨p', hp', hsc⟩
  · rw [hnone] at hs
    cases hs
  · rw [hp] at hp'
    injection hp' with hpp
    subst hpp
    rw [hsc] at hs
    injection hs with hss
    rw [← hss]
    exact toFixed2_bounds h0 h1

/-- Claim C8 (witness): the concrete score 80 is within `[0, 100]`. -/
theorem score_in_range_witness : (0 : ℚ) ≤ 80 ∧ (80 : ℚ) ≤ 100 :=
  score_in_range envOk none predOut 80 rfl (by norm_num [predOut])
    (by norm_num [predOut]) envOk_score

/-- Claim C9 (counterexample): with an empty cache slot and two
requests interleaved at the `await` boundary, both `loadModel()`
calls are in flight simultaneously, and the two callers end up
observing two different fully-loaded handles — refuting both the
"at most one load in flight" and the "same handle for all callers"
parts of the claim. -/
theorem concurrent_loads_overlap :
    loadsInFlight (run2 (.ok 1) (.ok 2) [true, false]) = 2 ∧
      (run2 (.ok 1) (.ok 2) [true, false, true, false]).t1 = .finished (.ok 1) ∧
      (run2 (.ok 1) (.ok 2) [true, false, true, false]).t2 = .finished (.ok 2) ∧
      (run2 (.ok 1) (.ok 2) [true, false, true, false]).t1 ≠
        (run2 (.ok 1) (.ok 2) [true, false, true, false]).t2 := by
  refine ⟨rfl, rfl, rfl, ?_⟩
  decide

/-- Claim C9 (amended): concurrent callers may each perform a
redundant load and may observe distinct handles, but under every
interleaving each populated cache value and every handle observed by
a caller is the result of one of the two completed load operations —
never a partially-loaded object. -/
theorem concurrent_observations_fully_loaded (l1 l2 : Except Unit Model)
    (sched : List Bool) :
    (∀ m, (run2 l1 l2 sched).cache = some m → l1 = .ok m ∨ l2 = .ok m) ∧
      (∀ m, (run2 l1 l2 sched).t1 = .finished (.ok m) → l1 = .ok m ∨ l2 = .ok m) ∧
      (∀ m, (run2 l1 l2 sched).t2 = .finished (.ok m) → l1 = .ok m ∨ l2 = .ok m) :=
  run2_accounted l1 l2 sched

/-- Claim C9 (witness): the amended statement applied to a concrete
schedule in which request 1 loads handle 5. -/
theorem concurrent_observations_fully_loaded_witness :
    (run2 (.ok 5) (.error ()) [true, true]).t1 = .finished (.ok 5) ∧
      ((.ok 5 : Except Unit Model) = .ok 5 ∨ (.error () : Except Unit Model) = .ok 5) :=
  ⟨rfl, (concurrent_observations_fully_loaded (.ok 5) (.error ()) [true, true]).2.1 5 rfl⟩

/-- Claim C10: a request with no uploaded file is rejected
immediately with the 400 "No image uploaded" failure, and nothing
else happens: no model load, no preprocessing, no inference, no
persistence write, no buffer allocation, and the cache slot is
untouched. -/
theorem no_upload_rejected_immediately (env : Env) (cache : Option Model)
    (h : env.hasFile = false) :
    handle env cache =
      ⟨⟨400, .fail, "No image uploaded", none⟩, cache, [], [], [], [], none, none⟩ := by
  obtain ⟨hf, lr, dr, pr, sr, fid, ts⟩ := env
  simp only at h
  subst h
  rfl

/-- Claim C10 (witness): the no-upload rejection at a concrete
request. -/
theorem no_upload_rejected_immediately_witness :
    handle envNoFile none =
      ⟨⟨400, .fail, "No image uploaded", none⟩, none, [], [], [], [], none, none⟩ :=
  no_upload_rejected_immediately envNoFile none rfl

end CancerApi
